import Mathlib

/-!
Shallow embedding of the appagenda backend (Python/FastAPI over MongoDB).

Translated sources:
  Backend/app/analytics/sales_dashboard.py
  Backend/app/admin/routes_franquicias.py
  Backend/app/admin/routes_servicios.py
  Backend/app/clients_service/routes_clientes.py

Modelling conventions:
  * Python `datetime` values are microseconds since an arbitrary epoch (`Int`);
    `timedelta(days=n)` is `n * usPerDay`; `timedelta.days` is floor division
    by `usPerDay` (Python floors toward negative infinity, hence `Int.fdiv`).
  * Monetary amounts are `Rat`; Python `round(x, 2)` is modelled by `round2`
    (round to nearest hundredth; the exact tie-breaking of Python float
    rounding is irrelevant to every property proved here).
  * A MongoDB document field that may be missing or null is an `Option`;
    Python truthiness of an optional string (`if x:`) is `truthy`.
  * Collections are lists of records; `find_one` is `List.find?` (first
    match), `update_one` is `updateFirst`, `update_many` is `List.map`
    guarded by the filter, and `modified_count` counts the documents whose
    stored value actually changed, as in MongoDB.
-/

namespace AppAgenda

/-- Truthiness of an optional string in Python: `None` and `""` are falsy. -/
def truthy : Option String → Bool
  | some s => s != ""
  | none => false

/-- Microseconds in one day, the unit of `timedelta(days=1)`. -/
def usPerDay : Int := 86400000000

/-- Python `timedelta.days` of a microsecond delta: floor division by a day. -/
def tdDays (delta : Int) : Int := Int.fdiv delta usPerDay

/-! ### sales_dashboard.py: period resolution (get_date_range, custom branch) -/

inductive DateRangeError where
  | startAfterEnd
  | tooLong
  deriving DecidableEq

inductive DateRangeResult where
  | invalid (err : DateRangeError)
  | ok (startUs endUs : Int)
  deriving DecidableEq

/-- The `custom` branch of `get_date_range`: the two parsed `DD-MM-YYYY`
dates are given as calendar day numbers `d1`, `d2`; the start is pinned to
00:00:00.000000 of its day and the end to 23:59:59.999999 of its day, then
`start > end` and the `dias > 365` bound are checked in that order. -/
def get_date_range_custom (d1 d2 : Int) : DateRangeResult :=
  let s := d1 * usPerDay
  let e := d2 * usPerDay + (usPerDay - 1)
  if s > e then .invalid .startAfterEnd
  else
    let dias := tdDays (e - s) + 1
    if dias > 365 then .invalid .tooLong
    else .ok s e

/-! ### sales_dashboard.py: comparison window of ventas_dashboard -/

/-- `dias_periodo = (end_date_dt - start_date_dt).days + 1`. -/
def dias_periodo (s e : Int) : Int := tdDays (e - s) + 1

/-- `start_anterior = start_date_dt - timedelta(days=dias_periodo)`. -/
def start_anterior (s e : Int) : Int := s - dias_periodo s e * usPerDay

/-- `end_anterior = start_date_dt - timedelta(days=1)`. -/
def end_anterior (s : Int) : Int := s - usPerDay

/-- The Mongo query of `get_ventas_periodo`: `fecha_pago` between the two
bounds, both inclusive (`$gte` / `$lte`). -/
def inVentasQuery (qs qe t : Int) : Prop := qs ≤ t ∧ t ≤ qe

instance (qs qe t : Int) : Decidable (inVentasQuery qs qe t) := by
  unfold inVentasQuery
  infer_instance

/-! ### C6 -/

/-- C6 counterexample. The claim accepts every custom window whose inclusive
span is at most 366 days, but the code rejects `dias > 365`: the 366-day
window from day 0 to day 365 (for instance the whole of a leap year) is
rejected with the too-long validation error. -/
theorem custom_range_366_cex :
    (0 : Int) ≤ 365 ∧ (365 : Int) - 0 + 1 ≤ 366 ∧
    get_date_range_custom 0 365 = .invalid .tooLong := by
  refine ⟨by norm_num, by norm_num, ?_⟩
  decide

/-- C6 (amended): the custom branch of `get_date_range` rejects a parsed
start date after the end date naming that check, rejects an inclusive span
of more than 365 days naming the length bound, and accepts every window with
`start ≤ end` spanning at most 365 days, returning its exact unclamped
bounds (midnight of the start day to 23:59:59.999999 of the end day). -/
theorem get_date_range_custom_spec (d1 d2 : Int) :
    (d1 > d2 → get_date_range_custom d1 d2 = .invalid .startAfterEnd) ∧
    (d1 ≤ d2 → d2 - d1 + 1 > 365 → get_date_range_custom d1 d2 = .invalid .tooLong) ∧
    (d1 ≤ d2 → d2 - d1 + 1 ≤ 365 →
      get_date_range_custom d1 d2 = .ok (d1 * usPerDay) (d2 * usPerDay + (usPerDay - 1))) := by
  have hD : (0 : Int) ≤ usPerDay := by norm_num [usPerDay]
  have hdias : tdDays (d2 * usPerDay + (usPerDay - 1) - d1 * usPerDay) + 1 = d2 - d1 + 1 := by
    unfold tdDays
    rw [Int.fdiv_eq_ediv _ hD]
    have : d2 * usPerDay + (usPerDay - 1) - d1 * usPerDay
        = (usPerDay - 1) + (d2 - d1) * usPerDay := by ring
    rw [this]
    norm_num [usPerDay]
    omega
  have hcmp : (d1 * usPerDay > d2 * usPerDay + (usPerDay - 1)) ↔ d1 > d2 := by
    norm_num [usPerDay]
    omega
  refine ⟨fun h => ?_, fun h1 h2 => ?_, fun h1 h2 => ?_⟩
  · unfold get_date_range_custom
    rw [if_pos (hcmp.mpr h)]
  · unfold get_date_range_custom
    rw [if_neg (by omega : ¬ d1 * usPerDay > d2 * usPerDay + (usPerDay - 1))]
    simp only [hdias]
    rw [if_pos (by omega)]
  · unfold get_date_range_custom
    rw [if_neg (by omega : ¬ d1 * usPerDay > d2 * usPerDay + (usPerDay - 1))]
    simp only [hdias]
    rw [if_neg (by omega)]

/-! ### C5 -/

/-- C5 counterexample. For the resolvable custom window of days 1..7 the
code computes the previous window as days -6..start-of-day-0: its end keeps
the midnight time-of-day of the current start instead of 23:59:59.999999.
The timestamp noon-of-day-0 lies in the day immediately preceding the
current window, yet it is matched by neither the previous nor the current
query — the claim that every such timestamp falls inside the previous
window is false. -/
theorem previous_period_gap_cex :
    get_date_range_custom 1 7 = .ok 86400000000 691199999999 ∧
    ((86400000000 : Int) - usPerDay ≤ 43200000000 ∧ (43200000000 : Int) ≤ 86400000000 - 1) ∧
    ¬ inVentasQuery (start_anterior 86400000000 691199999999)
        (end_anterior 86400000000) 43200000000 ∧
    ¬ inVentasQuery 86400000000 691199999999 43200000000 := by
  refine ⟨by decide, by decide, ?_, by decide⟩
  have h1 : start_anterior 86400000000 691199999999 = -518400000000 := by decide
  have h2 : end_anterior 86400000000 = 0 := by decide
  rw [h1, h2]
  decide

/-- C5 (amended): for every resolved window the comparison window has the
same inclusive day count and satisfies `previous.end = current.start - 1 day`,
and no timestamp is matched by both queries; but the claim of no gap fails:
every timestamp strictly between `previous.end` and `current.start` (the
part of the preceding day after its first microsecond) is matched by
neither query, because `end_anterior` keeps the midnight time-of-day of
`current.start` instead of extending to the end of the preceding day. -/
theorem previous_period_spec (s e : Int) :
    dias_periodo (start_anterior s e) (end_anterior s) = dias_periodo s e ∧
    end_anterior s = s - usPerDay ∧
    (∀ t : Int,
      ¬ (inVentasQuery (start_anterior s e) (end_anterior s) t ∧ inVentasQuery s e t)) ∧
    (∀ t : Int, end_anterior s < t → t < s →
      ¬ inVentasQuery (start_anterior s e) (end_anterior s) t ∧ ¬ inVentasQuery s e t) := by
  have hD : usPerDay ≠ 0 := by norm_num [usPerDay]
  have hlen : dias_periodo (start_anterior s e) (end_anterior s) = dias_periodo s e := by
    simp only [dias_periodo, start_anterior, end_anterior]
    have h1 : s - usPerDay - (s - (tdDays (e - s) + 1) * usPerDay)
        = tdDays (e - s) * usPerDay := by ring
    rw [h1]
    unfold tdDays
    rw [Int.mul_fdiv_cancel _ hD]
  refine ⟨hlen, rfl, fun t ⟨⟨_, hp2⟩, hc1, _⟩ => ?_, fun t h1 h2 => ⟨fun ⟨_, hq2⟩ => ?_, fun ⟨hq1, _⟩ => ?_⟩⟩
  · have : end_anterior s = s - usPerDay := rfl
    rw [this] at hp2
    have : (0 : Int) < usPerDay := by norm_num [usPerDay]
    omega
  · have : end_anterior s = s - usPerDay := rfl
    rw [this] at h1
    unfold end_anterior at hq2
    omega
  · omega

/-! ### sales_dashboard.py: calcular_metricas_financieras -/

/-- Association list with string keys, the model of a Python dict whose
iteration order is insertion order. -/
def lookupA {α : Type} (k : String) : List (String × α) → Option α
  | [] => none
  | (k2, v) :: rest => if k2 = k then some v else lookupA k rest

/-- Replace the value stored under `k`, if present; a model of
`d[k] = f(d[k])` on a key known to be present. -/
def updateA {α : Type} (k : String) (f : α → α) : List (String × α) → List (String × α)
  | [] => []
  | (k2, v) :: rest => if k2 = k then (k2, f v) :: rest else (k2, v) :: updateA k f rest

def containsKeyA {α : Type} (k : String) (l : List (String × α)) : Bool :=
  (lookupA k l).isSome

/-- Python `del d[k]` on an association list. -/
def eraseKeyA {α : Type} (k : String) (l : List (String × α)) : List (String × α) :=
  l.filter (fun p => p.1 != k)

/-- Model of Python `round(x, 2)`: round to the nearest hundredth. -/
def round2 (q : Rat) : Rat := (⌊q * 100 + 1 / 2⌋ : Int) / 100

/-- One line item of a sale: `item.get("tipo", "servicio")` and
`item.get("subtotal", 0)` read the two optional fields. -/
structure ItemVenta where
  tipo : Option String
  subtotal : Option Rat
  deriving DecidableEq

/-- A sale document as `calcular_metricas_financieras` reads it: the
optional `moneda` field, the `desglose_pagos` sub-document (missing keys
read as 0) and the `items` array. -/
structure Venta where
  moneda : Option String
  desglose_pagos : List (String × Rat)
  items : List ItemVenta
  deriving DecidableEq

/-- The per-currency metrics dict built by `calcular_metricas_financieras`. -/
structure Metricas where
  ventas_totales : Rat
  cantidad_ventas : Nat
  ventas_servicios : Rat
  ventas_productos : Rat
  metodos_pago : List (String × Rat)
  ticket_promedio : Rat
  deriving DecidableEq

/-- The initial `metodos_pago` dict of a fresh currency bucket, in source
order; note that it contains `sin_pago`, which the accumulation loop never
touches. -/
def metodosIniciales : List (String × Rat) :=
  [("efectivo", 0), ("transferencia", 0), ("tarjeta", 0), ("sin_pago", 0), ("otros", 0),
   ("addi", 0), ("giftcard", 0), ("link_de_pago", 0), ("tarjeta_credito", 0),
   ("tarjeta_debito", 0), ("abonos", 0)]

/-- A fresh currency bucket (`ticket_promedio` is only given a value in the
finalization pass; it starts at 0 here). -/
def metricasIniciales : Metricas :=
  { ventas_totales := 0, cantidad_ventas := 0, ventas_servicios := 0,
    ventas_productos := 0, metodos_pago := metodosIniciales, ticket_promedio := 0 }

/-- The payment methods the accumulation loop reads from `desglose_pagos`,
in source order; `sin_pago` is not among them. -/
def metodosLeidos : List String :=
  ["efectivo", "transferencia", "tarjeta", "tarjeta_credito", "tarjeta_debito",
   "link_de_pago", "giftcard", "addi", "abonos", "otros"]

/-- The per-item branch of the accumulation loop: a `servicio` subtotal goes
to `ventas_servicios`, a `producto` subtotal to `ventas_productos`. -/
def acumularItem (m : Metricas) (it : ItemVenta) : Metricas :=
  let tipo := it.tipo.getD "servicio"
  let sub := it.subtotal.getD 0
  if tipo = "servicio" then { m with ventas_servicios := m.ventas_servicios + sub }
  else if tipo = "producto" then { m with ventas_productos := m.ventas_productos + sub }
  else m

/-- The per-method branch of the accumulation loop: a strictly positive
value read from `desglose_pagos` is added to the bucket entry. -/
def acumularMetodo (d : List (String × Rat)) (m : Metricas) (metodo : String) : Metricas :=
  let valor := (lookupA metodo d).getD 0
  if valor > 0 then { m with metodos_pago := updateA metodo (fun x => x + valor) m.metodos_pago }
  else m

/-- Accumulate one sale into its currency bucket: add
`desglose_pagos.total`, count the sale, then fold the items and methods. -/
def acumularVenta (m : Metricas) (v : Venta) : Metricas :=
  let total := (lookupA "total" v.desglose_pagos).getD 0
  let m1 := { m with ventas_totales := m.ventas_totales + total,
                     cantidad_ventas := m.cantidad_ventas + 1 }
  let m2 := v.items.foldl acumularItem m1
  metodosLeidos.foldl (acumularMetodo v.desglose_pagos) m2

/-- One iteration of the sales loop: `moneda = venta.get("moneda", "COP")`,
create the bucket if absent, then accumulate. -/
def procesarVenta (acc : List (String × Metricas)) (v : Venta) : List (String × Metricas) :=
  let moneda := v.moneda.getD "COP"
  let acc1 := if containsKeyA moneda acc then acc else acc ++ [(moneda, metricasIniciales)]
  updateA moneda (fun m => acumularVenta m v) acc1

/-- The accumulation pass over all sales. -/
def procesarVentas (ventas : List Venta) : List (String × Metricas) :=
  ventas.foldl procesarVenta []

/-- The finalization pass over one bucket: average ticket, rounding, and
the removal of `sin_pago` when its value is 0 — the only key ever removed. -/
def finalizarMetricas (m : Metricas) : Metricas :=
  let ticket := if m.cantidad_ventas > 0
    then round2 (m.ventas_totales / (m.cantidad_ventas : Rat)) else 0
  let mp := m.metodos_pago.map (fun p => (p.1, round2 p.2))
  let mp2 := if (lookupA "sin_pago" mp).getD 0 = 0 then eraseKeyA "sin_pago" mp else mp
  { ventas_totales := round2 m.ventas_totales,
    cantidad_ventas := m.cantidad_ventas,
    ventas_servicios := round2 m.ventas_servicios,
    ventas_productos := round2 m.ventas_productos,
    metodos_pago := mp2,
    ticket_promedio := ticket }

/-- `calcular_metricas_financieras`: accumulation pass, then finalization of
every currency bucket. -/
def calcular_metricas_financieras (ventas : List Venta) : List (String × Metricas) :=
  (procesarVentas ventas).map (fun p => (p.1, finalizarMetricas p.2))

/-! ### Association list lemmas -/

theorem lookupA_updateA_self {α : Type} (k : String) (f : α → α) (l : List (String × α)) :
    lookupA k (updateA k f l) = (lookupA k l).map f := by
  induction l with
  | nil => rfl
  | cons p rest ih =>
    obtain ⟨k2, v⟩ := p
    by_cases h : k2 = k
    · simp [updateA, lookupA, h]
    · simp [updateA, lookupA, h, ih]

theorem lookupA_updateA_ne {α : Type} {k k2 : String} (h : k2 ≠ k) (f : α → α)
    (l : List (String × α)) : lookupA k2 (updateA k f l) = lookupA k2 l := by
  induction l with
  | nil => rfl
  | cons p rest ih =>
    obtain ⟨k3, v⟩ := p
    by_cases h3 : k3 = k
    · subst h3
      simp [updateA, lookupA, Ne.symm h]
    · by_cases h4 : k3 = k2
      · subst h4
        simp [updateA, lookupA, h3]
      · simp [updateA, lookupA, h3, h4, ih]

theorem lookupA_append_of_none {α : Type} {k : String} {l1 : List (String × α)}
    (h : lookupA k l1 = none) (l2 : List (String × α)) :
    lookupA k (l1 ++ l2) = lookupA k l2 := by
  induction l1 with
  | nil => rfl
  | cons p rest ih =>
    obtain ⟨k2, v⟩ := p
    by_cases h2 : k2 = k
    · simp [lookupA, h2] at h
    · simp only [lookupA, h2, if_neg] at h ⊢
      simp [List.cons_append, lookupA, h2, ih h]

theorem lookupA_map_snd {α β : Type} (k : String) (g : α → β) (l : List (String × α)) :
    lookupA k (l.map (fun p => (p.1, g p.2))) = (lookupA k l).map g := by
  induction l with
  | nil => rfl
  | cons p rest ih =>
    obtain ⟨k2, v⟩ := p
    by_cases h : k2 = k <;> simp [lookupA, h, ih]

theorem lookupA_eq_some_mem {α : Type} {k : String} {v : α} {l : List (String × α)}
    (h : lookupA k l = some v) : (k, v) ∈ l := by
  induction l with
  | nil => simp [lookupA] at h
  | cons p rest ih =>
    obtain ⟨k2, w⟩ := p
    by_cases h2 : k2 = k
    · subst h2
      simp [lookupA] at h
      simp [h]
    · simp only [lookupA, h2, if_neg] at h
      exact List.mem_cons_of_mem _ (ih h)

theorem map_fst_updateA {α : Type} (k : String) (f : α → α) (l : List (String × α)) :
    (updateA k f l).map Prod.fst = l.map Prod.fst := by
  induction l with
  | nil => rfl
  | cons p rest ih =>
    obtain ⟨k2, v⟩ := p
    by_cases h : k2 = k <;> simp [updateA, h, ih]

theorem map_fst_map_snd {α β : Type} (g : α → β) (l : List (String × α)) :
    (l.map (fun p => (p.1, g p.2))).map Prod.fst = l.map Prod.fst := by
  induction l with
  | nil => rfl
  | cons p rest ih => simp [ih]

theorem map_fst_eraseKeyA {α : Type} (k : String) (l : List (String × α)) :
    (eraseKeyA k l).map Prod.fst = (l.map Prod.fst).filter (fun s => s != k) := by
  induction l with
  | nil => rfl
  | cons p rest ih =>
    obtain ⟨k2, v⟩ := p
    by_cases h : k2 = k
    · subst h
      simpa [eraseKeyA, List.filter_cons] using ih
    · simpa [eraseKeyA, List.filter_cons, h] using ih

theorem mem_updateA {α : Type} {p : String × α} {k : String} {f : α → α}
    {l : List (String × α)} (h : p ∈ updateA k f l) :
    p ∈ l ∨ ∃ q ∈ l, p = (q.1, f q.2) := by
  induction l with
  | nil => simp [updateA] at h
  | cons q rest ih =>
    obtain ⟨k2, v⟩ := q
    simp only [updateA] at h
    by_cases h2 : k2 = k
    · rw [if_pos h2] at h
      rcases List.mem_cons.mp h with h3 | h3
      · exact Or.inr ⟨(k2, v), List.mem_cons_self _ _, by simp [h3]⟩
      · exact Or.inl (List.mem_cons_of_mem _ h3)
    · rw [if_neg h2] at h
      rcases List.mem_cons.mp h with h3 | h3
      · exact Or.inl (h3 ▸ List.mem_cons_self _ _)
      · rcases ih h3 with h4 | ⟨q, hq, hp⟩
        · exact Or.inl (List.mem_cons_of_mem _ h4)
        · exact Or.inr ⟨q, List.mem_cons_of_mem _ hq, hp⟩

theorem foldl_preserva {α β : Type} (P : β → Prop) (f : β → α → β) :
    ∀ (l : List α), (∀ b a, a ∈ l → P b → P (f b a)) → ∀ b, P b → P (l.foldl f b)
  | [], _, _, hb => hb
  | a :: l, h, b, hb =>
    foldl_preserva P f l (fun b2 a2 ha2 => h b2 a2 (List.mem_cons_of_mem _ ha2))
      (f b a) (h b a (List.mem_cons_self _ _) hb)

/-! ### Facts about the accumulation loop -/

theorem acumularItem_cantidad (m : Metricas) (it : ItemVenta) :
    (acumularItem m it).cantidad_ventas = m.cantidad_ventas := by
  simp only [acumularItem]
  split
  · rfl
  · split <;> rfl

theorem acumularItem_totales (m : Metricas) (it : ItemVenta) :
    (acumularItem m it).ventas_totales = m.ventas_totales := by
  simp only [acumularItem]
  split
  · rfl
  · split <;> rfl

theorem acumularItem_metodos (m : Metricas) (it : ItemVenta) :
    (acumularItem m it).metodos_pago = m.metodos_pago := by
  simp only [acumularItem]
  split
  · rfl
  · split <;> rfl

theorem acumularMetodo_cantidad (d : List (String × Rat)) (m : Metricas) (metodo : String) :
    (acumularMetodo d m metodo).cantidad_ventas = m.cantidad_ventas := by
  simp only [acumularMetodo]
  split <;> rfl

theorem acumularMetodo_totales (d : List (String × Rat)) (m : Metricas) (metodo : String) :
    (acumularMetodo d m metodo).ventas_totales = m.ventas_totales := by
  simp only [acumularMetodo]
  split <;> rfl

theorem foldl_acumularItem_cantidad (l : List ItemVenta) :
    ∀ m : Metricas, (l.foldl acumularItem m).cantidad_ventas = m.cantidad_ventas := by
  induction l with
  | nil => intro m; rfl
  | cons it l ih =>
    intro m
    simp only [List.foldl_cons, ih, acumularItem_cantidad]

theorem foldl_acumularItem_totales (l : List ItemVenta) :
    ∀ m : Metricas, (l.foldl acumularItem m).ventas_totales = m.ventas_totales := by
  induction l with
  | nil => intro m; rfl
  | cons it l ih =>
    intro m
    simp only [List.foldl_cons, ih, acumularItem_totales]

theorem foldl_acumularMetodo_cantidad (d : List (String × Rat)) (l : List String) :
    ∀ m : Metricas, (l.foldl (acumularMetodo d) m).cantidad_ventas = m.cantidad_ventas := by
  induction l with
  | nil => intro m; rfl
  | cons x l ih =>
    intro m
    simp only [List.foldl_cons, ih, acumularMetodo_cantidad]

theorem foldl_acumularMetodo_totales (d : List (String × Rat)) (l : List String) :
    ∀ m : Metricas, (l.foldl (acumularMetodo d) m).ventas_totales = m.ventas_totales := by
  induction l with
  | nil => intro m; rfl
  | cons x l ih =>
    intro m
    simp only [List.foldl_cons, ih, acumularMetodo_totales]

theorem acumularVenta_cantidad (m : Metricas) (v : Venta) :
    (acumularVenta m v).cantidad_ventas = m.cantidad_ventas + 1 := by
  unfold acumularVenta
  rw [foldl_acumularMetodo_cantidad, foldl_acumularItem_cantidad]

theorem acumularVenta_totales (m : Metricas) (v : Venta) :
    (acumularVenta m v).ventas_totales
      = m.ventas_totales + (lookupA "total" v.desglose_pagos).getD 0 := by
  unfold acumularVenta
  rw [foldl_acumularMetodo_totales, foldl_acumularItem_totales]

/-- Invariant of every currency bucket during accumulation: the
`metodos_pago` keys are exactly the eleven initial ones, in order, and
`sin_pago` — which the loop never touches — still holds 0. -/
def MetodosInv (m : Metricas) : Prop :=
  m.metodos_pago.map Prod.fst = metodosIniciales.map Prod.fst ∧
  lookupA "sin_pago" m.metodos_pago = some 0

theorem metodosInv_iniciales : MetodosInv metricasIniciales := by
  constructor
  · rfl
  · decide

theorem metodosInv_acumularVenta {m : Metricas} (hm : MetodosInv m) (v : Venta) :
    MetodosInv (acumularVenta m v) := by
  unfold acumularVenta
  apply foldl_preserva MetodosInv (acumularMetodo v.desglose_pagos) metodosLeidos
  · intro m2 metodo hmem hinv
    simp only [acumularMetodo]
    split
    · refine ⟨?_, ?_⟩
      · rw [map_fst_updateA]
        exact hinv.1
      · have hne : ∀ x ∈ metodosLeidos, "sin_pago" ≠ x := by decide
        rw [lookupA_updateA_ne (hne metodo hmem)]
        exact hinv.2
    · exact hinv
  · apply foldl_preserva MetodosInv acumularItem v.items
    · intro m2 it _ hinv
      unfold MetodosInv at hinv ⊢
      rw [acumularItem_metodos]
      exact hinv
    · exact hm

/-- The bucket invariant holds for every bucket of the accumulation pass. -/
theorem procesarVentas_inv (ventas : List Venta) :
    ∀ p ∈ procesarVentas ventas, MetodosInv p.2 := by
  unfold procesarVentas
  apply foldl_preserva (fun acc => ∀ p ∈ acc, MetodosInv p.2) procesarVenta ventas
  · intro acc v _ hinv p hp
    unfold procesarVenta at hp
    have hacc1 : ∀ q ∈ (if containsKeyA (v.moneda.getD "COP") acc then acc
        else acc ++ [(v.moneda.getD "COP", metricasIniciales)]), MetodosInv q.2 := by
      intro q hq
      split at hq
      · exact hinv q hq
      · rcases List.mem_append.mp hq with h | h
        · exact hinv q h
        · simp only [List.mem_singleton] at h
          rw [h]
          exact metodosInv_iniciales
    rcases mem_updateA hp with h | ⟨q, hq, hpq⟩
    · exact hacc1 p h
    · rw [hpq]
      exact metodosInv_acumularVenta (hacc1 q hq) v
  · intro p hp
    simp at hp

theorem finalizar_cantidad (m : Metricas) :
    (finalizarMetricas m).cantidad_ventas = m.cantidad_ventas := rfl

theorem finalizar_totales (m : Metricas) :
    (finalizarMetricas m).ventas_totales = round2 m.ventas_totales := rfl

theorem round2_zero : round2 0 = 0 := by
  norm_num [round2]

/-! ### C7 -/

/-- A sale paid entirely in cash: every other payment-method accumulator
stays at zero. -/
def ventaSoloEfectivo : Venta :=
  { moneda := some "COP", desglose_pagos := [("total", 100), ("efectivo", 100)], items := [] }

/-- C7 counterexample. A single COP sale paid entirely in cash leaves the
`transferencia` accumulator at exactly zero, yet the key is still present in
the returned `metodos_pago` mapping (with value 0): zero-valued method keys
other than `sin_pago` are not dropped, so the claimed sparse output is
false. -/
theorem metodos_pago_zero_present_cex :
    (lookupA "COP" (calcular_metricas_financieras [ventaSoloEfectivo])).bind
      (fun d => lookupA "transferencia" d.metodos_pago) = some 0 := by
  have hcond : (lookupA "sin_pago"
      (List.map (fun p => (p.1, round2 p.2))
        (acumularVenta metricasIniciales ventaSoloEfectivo).metodos_pago)).getD 0 = 0 := by
    have h : lookupA "sin_pago"
        (List.map (fun p => (p.1, round2 p.2))
          (acumularVenta metricasIniciales ventaSoloEfectivo).metodos_pago)
        = some (round2 0) := rfl
    rw [h, Option.getD_some, round2_zero]
  have h2 : (finalizarMetricas (acumularVenta metricasIniciales ventaSoloEfectivo)).metodos_pago
      = eraseKeyA "sin_pago"
          (List.map (fun p => (p.1, round2 p.2))
            (acumularVenta metricasIniciales ventaSoloEfectivo).metodos_pago) := by
    simp only [finalizarMetricas]
    rw [if_pos hcond]
  have h3 : lookupA "transferencia" (eraseKeyA "sin_pago"
      (List.map (fun p => (p.1, round2 p.2))
        (acumularVenta metricasIniciales ventaSoloEfectivo).metodos_pago))
      = some (round2 0) := rfl
  show lookupA "transferencia"
      (finalizarMetricas (acumularVenta metricasIniciales ventaSoloEfectivo)).metodos_pago
    = some 0
  rw [h2, h3, round2_zero]

/-- C7 (amended): in every currency bucket returned by
`calcular_metricas_financieras` the only method key ever dropped is
`sin_pago` (which the accumulation loop never feeds, so it is always 0 and
always dropped); every other method key of the fixed set stays present, in
source order, even when its accumulated value is exactly zero. -/
theorem metodos_pago_keys_after_finalize (ventas : List Venta) (moneda : String) (d : Metricas)
    (hd : lookupA moneda (calcular_metricas_financieras ventas) = some d) :
    d.metodos_pago.map Prod.fst
      = ["efectivo", "transferencia", "tarjeta", "otros", "addi", "giftcard",
         "link_de_pago", "tarjeta_credito", "tarjeta_debito", "abonos"] := by
  unfold calcular_metricas_financieras at hd
  rw [lookupA_map_snd] at hd
  cases h0 : lookupA moneda (procesarVentas ventas) with
  | none =>
    rw [h0] at hd
    simp at hd
  | some m0 =>
    rw [h0] at hd
    simp only [Option.map_some'] at hd
    obtain ⟨hkeys, hsin⟩ := procesarVentas_inv ventas (moneda, m0) (lookupA_eq_some_mem h0)
    dsimp only at hkeys hsin
    have hd2 : d = finalizarMetricas m0 := (Option.some.inj hd).symm
    subst hd2
    have hcond : (lookupA "sin_pago"
        (List.map (fun p => (p.1, round2 p.2)) m0.metodos_pago)).getD 0 = 0 := by
      rw [lookupA_map_snd, hsin, Option.map_some', Option.getD_some, round2_zero]
    show (finalizarMetricas m0).metodos_pago.map Prod.fst = _
    simp only [finalizarMetricas]
    rw [if_pos hcond, map_fst_eraseKeyA, map_fst_map_snd, hkeys]
    decide

/-- C7 witness: the amended theorem applied to the cash-only COP sale. -/
theorem metodos_pago_keys_witness :
    (lookupA "COP" (calcular_metricas_financieras [ventaSoloEfectivo])).map
      (fun d => d.metodos_pago.map Prod.fst)
      = some ["efectivo", "transferencia", "tarjeta", "otros", "addi", "giftcard",
              "link_de_pago", "tarjeta_credito", "tarjeta_debito", "abonos"] := by
  cases hd : lookupA "COP" (calcular_metricas_financieras [ventaSoloEfectivo]) with
  | none =>
    exact absurd hd (by
      rw [show lookupA "COP" (calcular_metricas_financieras [ventaSoloEfectivo])
          = some (finalizarMetricas (acumularVenta metricasIniciales ventaSoloEfectivo))
          from rfl]
      simp)
  | some d =>
    simp only [Option.map_some']
    rw [metodos_pago_keys_after_finalize _ _ _ hd]

/-! ### C10 -/

/-- C10: a sale whose `moneda` field is missing is neither skipped nor an
error: `venta.get("moneda", "COP")` routes it to the COP bucket, whose sale
count goes up by one and whose running total gains the
`desglose_pagos.total` of the sale (the final figure being the rounded sum). -/
theorem venta_sin_moneda_cop (prev : List Venta) (v : Venta) (hm : v.moneda = none) :
    ∃ d, lookupA "COP" (calcular_metricas_financieras (prev ++ [v])) = some d ∧
      d.cantidad_ventas
        = ((lookupA "COP" (procesarVentas prev)).map Metricas.cantidad_ventas).getD 0 + 1 ∧
      d.ventas_totales
        = round2 (((lookupA "COP" (procesarVentas prev)).map Metricas.ventas_totales).getD 0
            + (lookupA "total" v.desglose_pagos).getD 0) := by
  have hstep : procesarVentas (prev ++ [v]) = procesarVenta (procesarVentas prev) v := by
    unfold procesarVentas
    rw [List.foldl_append]
    rfl
  have hmon : v.moneda.getD "COP" = "COP" := by rw [hm]; rfl
  unfold calcular_metricas_financieras
  rw [hstep]
  cases h0 : lookupA "COP" (procesarVentas prev) with
  | some m0 =>
    have hck : containsKeyA "COP" (procesarVentas prev) = true := by
      unfold containsKeyA
      rw [h0]
      rfl
    have hpv : procesarVenta (procesarVentas prev) v
        = updateA "COP" (fun m => acumularVenta m v) (procesarVentas prev) := by
      simp only [procesarVenta, hmon, hck, if_true]
    rw [hpv]
    refine ⟨finalizarMetricas (acumularVenta m0 v), ?_, ?_, ?_⟩
    · rw [lookupA_map_snd, lookupA_updateA_self, h0]
      rfl
    · rw [finalizar_cantidad, acumularVenta_cantidad]
      rfl
    · rw [finalizar_totales, acumularVenta_totales]
      rfl
  | none =>
    have hck : containsKeyA "COP" (procesarVentas prev) = false := by
      unfold containsKeyA
      rw [h0]
      rfl
    have hpv : procesarVenta (procesarVentas prev) v
        = updateA "COP" (fun m => acumularVenta m v)
            (procesarVentas prev ++ [("COP", metricasIniciales)]) := by
      simp only [procesarVenta, hmon, hck, Bool.false_eq_true, if_false]
    rw [hpv]
    refine ⟨finalizarMetricas (acumularVenta metricasIniciales v), ?_, ?_, ?_⟩
    · rw [lookupA_map_snd, lookupA_updateA_self, lookupA_append_of_none h0]
      rfl
    · rw [finalizar_cantidad, acumularVenta_cantidad]
      rfl
    · rw [finalizar_totales, acumularVenta_totales]
      rfl

/-- C10 witness: the theorem applied to a single sale with no `moneda`. -/
theorem venta_sin_moneda_cop_witness :
    ∃ d, lookupA "COP" (calcular_metricas_financieras
        ([] ++ [{ moneda := none, desglose_pagos := [("total", 50)], items := [] }]))
      = some d ∧
      d.cantidad_ventas
        = ((lookupA "COP" (procesarVentas [])).map Metricas.cantidad_ventas).getD 0 + 1 ∧
      d.ventas_totales
        = round2 (((lookupA "COP" (procesarVentas [])).map Metricas.ventas_totales).getD 0
            + (lookupA "total"
                (({ moneda := none, desglose_pagos := [("total", 50)], items := [] } :
                  Venta)).desglose_pagos).getD 0) :=
  venta_sin_moneda_cop [] _ rfl

/-! ### routes_franquicias.py: the franchise-membership propagator -/

/-- A franchise document: its id and the `sedes` array. -/
structure Franquicia where
  franquicia_id : String
  sedes : List String
  deriving DecidableEq

/-- A site document (`collection_locales`): its id and the optional
franchise back-reference. -/
structure Sede where
  sede_id : String
  franquicia_id : Option String
  deriving DecidableEq

/-- A user document (`collection_auth`): optional site binding and the
denormalized optional franchise tag. -/
structure Usuario where
  usuario_id : String
  sede_id : Option String
  franquicia_id : Option String
  deriving DecidableEq

/-- The three collections the propagator touches. -/
structure DBState where
  franquicias : List Franquicia
  locales : List Sede
  usuarios : List Usuario
  deriving DecidableEq

/-- Mongo `update_one`: rewrite the first document matching the filter. -/
def updateFirst {α : Type} (p : α → Bool) (f : α → α) : List α → List α
  | [] => []
  | x :: xs => if p x then f x :: xs else x :: updateFirst p f xs

/-- Mongo `$addToSet` on the `sedes` array: append only when absent. -/
def addToSetSede (sid : String) (fr : Franquicia) : Franquicia :=
  if fr.sedes.contains sid then fr else { fr with sedes := fr.sedes ++ [sid] }

/-- The `update_many` write of `asignar_sede` on one user document. -/
def asignarUsuario (sid fid : String) (u : Usuario) : Usuario :=
  if u.sede_id == some sid then { u with franquicia_id := some fid } else u

/-- The three writes of `asignar_sede`, in source order (the three target
collections are distinct, so the writes touch disjoint state). -/
def aplicarAsignacion (st : DBState) (fid sid : String) : DBState :=
  { franquicias := updateFirst (fun f => f.franquicia_id == fid) (addToSetSede sid) st.franquicias,
    locales := updateFirst (fun l => l.sede_id == sid)
      (fun l => { l with franquicia_id := some fid }) st.locales,
    usuarios := st.usuarios.map (asignarUsuario sid fid) }

/-- `modified_count` of the `update_many` of `asignar_sede`: the users bound
to the site whose stored tag is not already the new one. -/
def usuariosModificadosAsignar (st : DBState) (sid fid : String) : Nat :=
  (st.usuarios.filter (fun u => u.sede_id == some sid && u.franquicia_id != some fid)).length

inductive AsignarResult where
  | notFoundFranquicia
  | notFoundSede
  | conflict (actual : String)
  | ok (usuarios_actualizados : Nat)
  deriving DecidableEq

/-- `asignar_sede`: check the franchise, then the site, then reject a site
already carried by a different franchise (Python truthiness: an empty-string
tag does not count), then perform the three writes and answer with the
count of modified user documents. -/
def asignar_sede (st : DBState) (fid sid : String) : AsignarResult × DBState :=
  match st.franquicias.find? (fun f => f.franquicia_id == fid) with
  | none => (.notFoundFranquicia, st)
  | some _ =>
    match st.locales.find? (fun l => l.sede_id == sid) with
    | none => (.notFoundSede, st)
    | some sede =>
      match sede.franquicia_id with
      | some g =>
        if g ≠ "" ∧ g ≠ fid then (.conflict g, st)
        else (.ok (usuariosModificadosAsignar st sid fid), aplicarAsignacion st fid sid)
      | none => (.ok (usuariosModificadosAsignar st sid fid), aplicarAsignacion st fid sid)

/-- The `update_many` write of `quitar_sede` on one user document
(`$unset` of the tag). -/
def quitarUsuario (sid : String) (u : Usuario) : Usuario :=
  if u.sede_id == some sid then { u with franquicia_id := none } else u

/-- The three writes of `quitar_sede`, in source order: `$pull` from the
array, `$unset` on the site, `$unset` on the bound users. -/
def aplicarQuitar (st : DBState) (fid sid : String) : DBState :=
  { franquicias := updateFirst (fun f => f.franquicia_id == fid)
      (fun f => { f with sedes := f.sedes.filter (fun s => s != sid) }) st.franquicias,
    locales := updateFirst (fun l => l.sede_id == sid)
      (fun l => { l with franquicia_id := none }) st.locales,
    usuarios := st.usuarios.map (quitarUsuario sid) }

/-- `modified_count` of the `$unset` `update_many`: bound users whose tag
field exists. -/
def usuariosModificadosQuitar (st : DBState) (sid : String) : Nat :=
  (st.usuarios.filter (fun u => u.sede_id == some sid && u.franquicia_id.isSome)).length

inductive QuitarResult where
  | notFoundFranquicia
  | noPertenece
  | ok (usuarios_actualizados : Nat)
  deriving DecidableEq

/-- `quitar_sede`: the franchise must exist and its `sedes` array must
contain the site; then the three reverse writes run. -/
def quitar_sede (st : DBState) (fid sid : String) : QuitarResult × DBState :=
  match st.franquicias.find? (fun f => f.franquicia_id == fid) with
  | none => (.notFoundFranquicia, st)
  | some fr =>
    if fr.sedes.contains sid then
      (.ok (usuariosModificadosQuitar st sid), aplicarQuitar st fid sid)
    else (.noPertenece, st)

/-! ### C2 -/

/-- C2: `asignar_sede` answers not-found when the franchise is missing;
with the franchise present, not-found when the site is missing; with both
present, a conflict naming the current owner when the site carries a
different (non-empty) franchise tag; otherwise (site untagged or already
tagged with this same franchise) it succeeds, and the success value is the
number of user documents bound to the site whose stored franchise tag
actually changed. -/
theorem asignar_sede_spec (st : DBState) (fid sid : String) :
    (st.franquicias.find? (fun f => f.franquicia_id == fid) = none →
      asignar_sede st fid sid = (.notFoundFranquicia, st)) ∧
    (∀ fr, st.franquicias.find? (fun f => f.franquicia_id == fid) = some fr →
      st.locales.find? (fun l => l.sede_id == sid) = none →
      asignar_sede st fid sid = (.notFoundSede, st)) ∧
    (∀ fr sede g, st.franquicias.find? (fun f => f.franquicia_id == fid) = some fr →
      st.locales.find? (fun l => l.sede_id == sid) = some sede →
      sede.franquicia_id = some g → g ≠ "" → g ≠ fid →
      asignar_sede st fid sid = (.conflict g, st)) ∧
    (∀ fr sede, st.franquicias.find? (fun f => f.franquicia_id == fid) = some fr →
      st.locales.find? (fun l => l.sede_id == sid) = some sede →
      (sede.franquicia_id = none ∨ sede.franquicia_id = some fid) →
      (asignar_sede st fid sid).1
        = .ok ((st.usuarios.filter
            (fun u => u.sede_id == some sid && u.franquicia_id != some fid)).length)) := by
  refine ⟨fun h => ?_, fun fr h1 h2 => ?_, fun fr sede g h1 h2 h3 h4 h5 => ?_,
    fun fr sede h1 h2 h3 => ?_⟩
  · simp only [asignar_sede, h]
  · simp only [asignar_sede, h1, h2]
  · simp only [asignar_sede, h1, h2, h3]
    rw [if_pos ⟨h4, h5⟩]
  · rcases h3 with h3 | h3
    · simp only [asignar_sede, h1, h2, h3, usuariosModificadosAsignar]
    · simp only [asignar_sede, h1, h2, h3]
      rw [if_neg (by simp)]
      simp only [usuariosModificadosAsignar]

/-! ### Propagator lemmas shared by the round-trip and idempotence proofs -/

theorem contains_iff_mem {α : Type} [BEq α] [LawfulBEq α] {l : List α} {a : α} :
    l.contains a = true ↔ a ∈ l := List.elem_iff

theorem find?_updateFirst {α : Type} (p : α → Bool) (f : α → α) (l : List α)
    (hp : ∀ x, p x = true → p (f x) = true) :
    (updateFirst p f l).find? p = (l.find? p).map f := by
  induction l with
  | nil => rfl
  | cons x xs ih =>
    by_cases h : p x = true
    · simp only [updateFirst, if_pos h]
      rw [List.find?_cons_of_pos _ (hp x h), List.find?_cons_of_pos _ h]
      rfl
    · simp only [updateFirst, if_neg h]
      rw [List.find?_cons_of_neg _ h, List.find?_cons_of_neg _ h]
      exact ih

theorem updateFirst_eq_of_fix {α : Type} (p : α → Bool) (f : α → α) {l : List α} {a : α}
    (hfind : l.find? p = some a) (hfa : f a = a) : updateFirst p f l = l := by
  induction l with
  | nil => simp at hfind
  | cons x xs ih =>
    by_cases h : p x = true
    · rw [List.find?_cons_of_pos _ h] at hfind
      obtain rfl : x = a := Option.some.inj hfind
      simp only [updateFirst, if_pos h, hfa]
    · rw [List.find?_cons_of_neg _ h] at hfind
      simp only [updateFirst, if_neg h, ih hfind]

theorem addToSetSede_id (sid : String) (fr : Franquicia) :
    (addToSetSede sid fr).franquicia_id = fr.franquicia_id := by
  unfold addToSetSede
  split <;> rfl

theorem addToSetSede_mem (sid : String) (fr : Franquicia) :
    sid ∈ (addToSetSede sid fr).sedes := by
  unfold addToSetSede
  by_cases h : fr.sedes.contains sid = true
  · rw [if_pos h]
    exact contains_iff_mem.mp h
  · rw [if_neg h]
    exact List.mem_append_right _ (List.mem_singleton.mpr rfl)

theorem addToSetSede_of_contains {sid : String} {fr : Franquicia}
    (h : fr.sedes.contains sid = true) : addToSetSede sid fr = fr := by
  unfold addToSetSede
  rw [if_pos h]

theorem find?_franquicias_asignar (st : DBState) (fid sid : String) {fr : Franquicia}
    (hf : st.franquicias.find? (fun f => f.franquicia_id == fid) = some fr) :
    (aplicarAsignacion st fid sid).franquicias.find? (fun f => f.franquicia_id == fid)
      = some (addToSetSede sid fr) := by
  show (updateFirst _ _ st.franquicias).find? _ = _
  rw [find?_updateFirst _ _ _ (fun x hx => by rw [addToSetSede_id]; exact hx), hf]
  rfl

theorem find?_locales_asignar (st : DBState) (fid sid : String) {sede : Sede}
    (hs : st.locales.find? (fun l => l.sede_id == sid) = some sede) :
    (aplicarAsignacion st fid sid).locales.find? (fun l => l.sede_id == sid)
      = some { sede with franquicia_id := some fid } := by
  show (updateFirst _ _ st.locales).find? _ = _
  rw [find?_updateFirst (fun l => l.sede_id == sid)
    (fun l => { l with franquicia_id := some fid }) st.locales (fun x hx => hx), hs]
  rfl

/-! ### C3 -/

/-- C3: starting from a state where the franchise and the site exist, the
site carries no franchise tag and every user bound to the site carries no
franchise tag, `asignar_sede` followed by `quitar_sede` on the same pair
succeeds at both steps and restores the membership data: the site record
looked up afterwards carries no tag, every user bound to the site carries
no tag, and the franchise record looked up afterwards does not list the
site. -/
theorem asignar_quitar_roundtrip (st : DBState) (fid sid : String) (fr : Franquicia) (sede : Sede)
    (hf : st.franquicias.find? (fun f => f.franquicia_id == fid) = some fr)
    (hs : st.locales.find? (fun l => l.sede_id == sid) = some sede)
    (htag : sede.franquicia_id = none)
    (_husr : ∀ u ∈ st.usuarios, u.sede_id = some sid → u.franquicia_id = none) :
    (∃ n, (asignar_sede st fid sid).1 = .ok n) ∧
    (∃ m, (quitar_sede (asignar_sede st fid sid).2 fid sid).1 = .ok m) ∧
    (∀ l2, (quitar_sede (asignar_sede st fid sid).2 fid sid).2.locales.find?
        (fun l => l.sede_id == sid) = some l2 → l2.franquicia_id = none) ∧
    (∀ u ∈ (quitar_sede (asignar_sede st fid sid).2 fid sid).2.usuarios,
      u.sede_id = some sid → u.franquicia_id = none) ∧
    (∀ f2, (quitar_sede (asignar_sede st fid sid).2 fid sid).2.franquicias.find?
        (fun f => f.franquicia_id == fid) = some f2 → sid ∉ f2.sedes) := by
  have hasg : asignar_sede st fid sid
      = (.ok (usuariosModificadosAsignar st sid fid), aplicarAsignacion st fid sid) := by
    simp only [asignar_sede, hf, hs, htag]
  have hfr1 := find?_franquicias_asignar st fid sid hf
  have hs1 := find?_locales_asignar st fid sid hs
  have hcont : (addToSetSede sid fr).sedes.contains sid = true :=
    contains_iff_mem.mpr (addToSetSede_mem sid fr)
  have hquit : quitar_sede (aplicarAsignacion st fid sid) fid sid
      = (.ok (usuariosModificadosQuitar (aplicarAsignacion st fid sid) sid),
         aplicarQuitar (aplicarAsignacion st fid sid) fid sid) := by
    simp only [quitar_sede, hfr1, hcont, if_true]
  rw [hasg]
  refine ⟨⟨_, rfl⟩, ?_, ?_, ?_, ?_⟩
  · rw [hquit]
    exact ⟨_, rfl⟩
  · intro l2 hl2
    rw [hquit] at hl2
    have : (aplicarQuitar (aplicarAsignacion st fid sid) fid sid).locales.find?
        (fun l => l.sede_id == sid) = some { sede with franquicia_id := none } := by
      show (updateFirst _ _ _).find? _ = _
      rw [find?_updateFirst (fun l => l.sede_id == sid)
        (fun l => { l with franquicia_id := none })
        (aplicarAsignacion st fid sid).locales (fun x hx => hx), hs1]
      rfl
    rw [this] at hl2
    obtain rfl : { sede with franquicia_id := none } = l2 := Option.some.inj hl2
    rfl
  · intro u hu
    rw [hquit] at hu
    rcases List.mem_map.mp hu with ⟨u0, _, rfl⟩
    intro hsede
    unfold quitarUsuario at hsede ⊢
    by_cases h : (u0.sede_id == some sid) = true
    · rw [if_pos h]
    · rw [if_neg h] at hsede
      exact absurd (beq_iff_eq.mpr hsede) h
  · intro f2 hf2
    rw [hquit] at hf2
    have : (aplicarQuitar (aplicarAsignacion st fid sid) fid sid).franquicias.find?
        (fun f => f.franquicia_id == fid)
        = some { addToSetSede sid fr with
                 sedes := (addToSetSede sid fr).sedes.filter (fun s => s != sid) } := by
      show (updateFirst _ _ _).find? _ = _
      rw [find?_updateFirst (fun f => f.franquicia_id == fid)
        (fun f => { f with sedes := f.sedes.filter (fun s => s != sid) })
        (aplicarAsignacion st fid sid).franquicias (fun x hx => hx), hfr1]
      rfl
    rw [this] at hf2
    obtain rfl := Option.some.inj hf2
    intro hmem
    rcases List.mem_filter.mp hmem with ⟨_, hne⟩
    simp at hne

/-- C3 witness: one franchise, one untagged site, one untagged bound user. -/
theorem asignar_quitar_roundtrip_witness :
    (∃ n, (asignar_sede ⟨[⟨"F1", []⟩], [⟨"S1", none⟩], [⟨"u1", some "S1", none⟩]⟩
        "F1" "S1").1 = .ok n) ∧
    (∃ m, (quitar_sede (asignar_sede ⟨[⟨"F1", []⟩], [⟨"S1", none⟩],
        [⟨"u1", some "S1", none⟩]⟩ "F1" "S1").2 "F1" "S1").1 = .ok m) ∧
    (∀ l2, (quitar_sede (asignar_sede ⟨[⟨"F1", []⟩], [⟨"S1", none⟩],
        [⟨"u1", some "S1", none⟩]⟩ "F1" "S1").2 "F1" "S1").2.locales.find?
        (fun l => l.sede_id == "S1") = some l2 → l2.franquicia_id = none) ∧
    (∀ u ∈ (quitar_sede (asignar_sede ⟨[⟨"F1", []⟩], [⟨"S1", none⟩],
        [⟨"u1", some "S1", none⟩]⟩ "F1" "S1").2 "F1" "S1").2.usuarios,
      u.sede_id = some "S1" → u.franquicia_id = none) ∧
    (∀ f2, (quitar_sede (asignar_sede ⟨[⟨"F1", []⟩], [⟨"S1", none⟩],
        [⟨"u1", some "S1", none⟩]⟩ "F1" "S1").2 "F1" "S1").2.franquicias.find?
        (fun f => f.franquicia_id == "F1") = some f2 → "S1" ∉ f2.sedes) :=
  asignar_quitar_roundtrip _ "F1" "S1" ⟨"F1", []⟩ ⟨"S1", none⟩
    (by decide) (by decide) rfl (by decide)

/-! ### C9 -/

theorem asignarUsuario_idem (sid fid : String) (u : Usuario) :
    asignarUsuario sid fid (asignarUsuario sid fid u) = asignarUsuario sid fid u := by
  unfold asignarUsuario
  by_cases h : (u.sede_id == some sid) = true
  · rw [if_pos h, if_pos h]
  · rw [if_neg h, if_neg h]

/-- C9: when the first `asignar_sede` call succeeds (site untagged or
already tagged with this same franchise), a second identical call is not
rejected — it answers ok with 0 modified users — and leaves the whole state
(the `sedes` array of the franchise, the tag of the site and the tag of
every user)
exactly as the first call left it. -/
theorem asignar_sede_idempotente (st : DBState) (fid sid : String) (fr : Franquicia) (sede : Sede)
    (hf : st.franquicias.find? (fun f => f.franquicia_id == fid) = some fr)
    (hs : st.locales.find? (fun l => l.sede_id == sid) = some sede)
    (htag : sede.franquicia_id = none ∨ sede.franquicia_id = some fid) :
    asignar_sede (asignar_sede st fid sid).2 fid sid = (.ok 0, (asignar_sede st fid sid).2) := by
  have hasg : asignar_sede st fid sid
      = (.ok (usuariosModificadosAsignar st sid fid), aplicarAsignacion st fid sid) := by
    rcases htag with h | h
    · simp only [asignar_sede, hf, hs, h]
    · simp only [asignar_sede, hf, hs, h]
      rw [if_neg (by simp)]
  rw [hasg]
  have hfr1 := find?_franquicias_asignar st fid sid hf
  have hs1 := find?_locales_asignar st fid sid hs
  have hcount : usuariosModificadosAsignar (aplicarAsignacion st fid sid) sid fid = 0 := by
    unfold usuariosModificadosAsignar
    rw [List.length_eq_zero, List.filter_eq_nil_iff]
    intro u hu
    rcases List.mem_map.mp hu with ⟨u0, _, rfl⟩
    unfold asignarUsuario
    by_cases h : (u0.sede_id == some sid) = true
    · rw [if_pos h]
      simp
    · rw [if_neg h]
      simp only [Bool.and_eq_true]
      intro hcontra
      exact absurd hcontra.1 h
  have hstate : aplicarAsignacion (aplicarAsignacion st fid sid) fid sid
      = aplicarAsignacion st fid sid := by
    have h1 : updateFirst (fun f => f.franquicia_id == fid) (addToSetSede sid)
        (aplicarAsignacion st fid sid).franquicias = (aplicarAsignacion st fid sid).franquicias :=
      updateFirst_eq_of_fix _ _ hfr1
        (addToSetSede_of_contains (contains_iff_mem.mpr (addToSetSede_mem sid fr)))
    have h2 : updateFirst (fun l => l.sede_id == sid)
        (fun l => { l with franquicia_id := some fid })
        (aplicarAsignacion st fid sid).locales = (aplicarAsignacion st fid sid).locales :=
      updateFirst_eq_of_fix _ _ hs1 rfl
    have h3 : (aplicarAsignacion st fid sid).usuarios.map (asignarUsuario sid fid)
        = (aplicarAsignacion st fid sid).usuarios := by
      show (st.usuarios.map (asignarUsuario sid fid)).map (asignarUsuario sid fid) = _
      rw [List.map_map]
      exact List.map_congr_left (fun u _ => asignarUsuario_idem sid fid u)
    show ({ franquicias := _, locales := _, usuarios := _ } : DBState) = _
    rw [h1, h2, h3]
  simp only [asignar_sede, hfr1, hs1]
  rw [if_neg (by simp)]
  rw [hcount, hstate]

/-- C9 witness: the idempotence theorem at a one-franchise, one-site,
one-user state. -/
theorem asignar_sede_idempotente_witness :
    asignar_sede (asignar_sede ⟨[⟨"F2", []⟩], [⟨"S2", none⟩], [⟨"u2", some "S2", none⟩]⟩
        "F2" "S2").2 "F2" "S2"
      = (.ok 0, (asignar_sede ⟨[⟨"F2", []⟩], [⟨"S2", none⟩], [⟨"u2", some "S2", none⟩]⟩
        "F2" "S2").2) :=
  asignar_sede_idempotente _ "F2" "S2" ⟨"F2", []⟩ ⟨"S2", none⟩
    (by decide) (by decide) (Or.inl rfl)

/-! ### routes_clientes.py: data model and scope resolution -/

/-- A client document. `id` stands for the Mongo `_id`. -/
structure Cliente where
  id : Nat
  nombre : Option String
  correo : Option String
  telefono : Option String
  sede_id : Option String
  franquicia_id : Option String
  deriving DecidableEq

/-- `_get_franquicia_id_de_sede`: nothing for a falsy site id or a missing
site, otherwise the optional tag of the site. -/
def franquiciaIdDeSede (locales : List Sede) (sedeId : Option String) : Option String :=
  if truthy sedeId then
    match locales.find? (fun l => some l.sede_id == sedeId) with
    | some sede => sede.franquicia_id
    | none => none
  else none

/-- The two shapes of the base Mongo query of the client listings. -/
inductive ClienteQuery where
  | porFranquicia (f : String)
  | porSede (s : Option String)
  deriving DecidableEq

/-- The query of `listar_clientes` for an `admin_sede` / `estilista`
caller: filter by the franchise of the site when the looked-up tag is
truthy, else fall back to the own site of the caller. -/
def listarClientesQuery (locales : List Sede) (userSede : Option String) : ClienteQuery :=
  match franquiciaIdDeSede locales userSede with
  | some f => if f != "" then .porFranquicia f else .porSede userSede
  | none => .porSede userSede

/-- Whether a client document matches the base query. -/
def clienteMatchesQuery : ClienteQuery → Cliente → Bool
  | .porFranquicia f, c => c.franquicia_id == some f
  | .porSede s, c => c.sede_id == s

/-- `listar_clientes` (no free-text filter) for an `admin_sede` or
`estilista` caller bound to `userSede`: the base query applied to the
collection. -/
def listar_clientes (locales : List Sede) (clientes : List Cliente)
    (userSede : Option String) : List Cliente :=
  clientes.filter (clienteMatchesQuery (listarClientesQuery locales userSede))

/-- The base query of `listar_todos` for an `admin_sede` / `estilista`
caller: a falsy site id is rejected (400), otherwise the same
franchise-or-site logic, inlined in the source. -/
def listarTodosQuery (locales : List Sede) (userSede : Option String) : Option ClienteQuery :=
  if truthy userSede then
    let franquicia := match locales.find? (fun l => some l.sede_id == userSede) with
      | some sede => sede.franquicia_id
      | none => none
    some (match franquicia with
      | some f => if f != "" then .porFranquicia f else .porSede userSede
      | none => .porSede userSede)
  else none

/-- Modelled from the claim wording of C1 (not from the source): the union
of the three scope branches — no site tag and no franchise tag (global),
tagged with the site of the caller, or tagged with the franchise of the
site. -/
def specClienteScope (siteId : String) (franchiseId : String) (c : Cliente) : Bool :=
  (c.sede_id == none && c.franquicia_id == none) ||
    c.sede_id == some siteId || c.franquicia_id == some franchiseId

/-! ### C1 -/

/-- C1 counterexample. Caller site S1 carries franchise F1. A client tagged
to the own site S1 of the caller but with no franchise tag is selected by the
claimed three-branch union, yet both listings build the query
`franquicia_id = F1` and exclude it. -/
theorem listar_clientes_not_union_cex :
    specClienteScope "S1" "F1" ⟨1, none, none, none, some "S1", none⟩ = true ∧
    listar_clientes [⟨"S1", some "F1"⟩] [⟨1, none, none, none, some "S1", none⟩]
      (some "S1") = [] ∧
    listarTodosQuery [⟨"S1", some "F1"⟩] (some "S1") = some (.porFranquicia "F1") ∧
    clienteMatchesQuery (.porFranquicia "F1") ⟨1, none, none, none, some "S1", none⟩
      = false := by
  decide

/-- C1 (amended): for an `admin_sede` / `estilista` caller bound to a
non-empty site S, when the site lookup yields a truthy franchise F both
listings select exactly the clients whose `franquicia_id` equals F — the
untagged (global) clients and the clients tagged to S without the franchise
tag are excluded, not returned as the union in the spec says; when the lookup
yields no franchise, both listings select exactly the clients whose
`sede_id` equals S. -/
theorem listar_clientes_spec (locales : List Sede) (clientes : List Cliente) (S F : String)
    (hS : S ≠ "") :
    (franquiciaIdDeSede locales (some S) = some F → F ≠ "" →
      listar_clientes locales clientes (some S)
        = clientes.filter (fun c => c.franquicia_id == some F) ∧
      listarTodosQuery locales (some S) = some (.porFranquicia F)) ∧
    (franquiciaIdDeSede locales (some S) = none →
      listar_clientes locales clientes (some S)
        = clientes.filter (fun c => c.sede_id == some S) ∧
      listarTodosQuery locales (some S) = some (.porSede (some S))) := by
  have htr : truthy (some S) = true := by
    simp [truthy, hS]
  constructor
  · intro hF hF2
    have hq : listarClientesQuery locales (some S) = .porFranquicia F := by
      unfold listarClientesQuery
      rw [hF]
      simp [hF2]
    constructor
    · unfold listar_clientes
      rw [hq]
      rfl
    · unfold listarTodosQuery
      rw [if_pos htr]
      unfold franquiciaIdDeSede at hF
      rw [if_pos htr] at hF
      rw [hF]
      simp [hF2]
  · intro hF
    have hq : listarClientesQuery locales (some S) = .porSede (some S) := by
      unfold listarClientesQuery
      rw [hF]
    constructor
    · unfold listar_clientes
      rw [hq]
      rfl
    · unfold listarTodosQuery
      rw [if_pos htr]
      unfold franquiciaIdDeSede at hF
      rw [if_pos htr] at hF
      rw [hF]

/-- C1 witness: the amended theorem at a site with a franchise and at a
site without one. -/
theorem listar_clientes_spec_witness :
    ((franquiciaIdDeSede [⟨"S1", some "F1"⟩] (some "S1") = some "F1" → "F1" ≠ "" →
      listar_clientes [⟨"S1", some "F1"⟩] [⟨1, none, none, none, some "S1", none⟩]
          (some "S1")
        = List.filter (fun c => c.franquicia_id == some "F1")
            [⟨1, none, none, none, some "S1", none⟩] ∧
      listarTodosQuery [⟨"S1", some "F1"⟩] (some "S1") = some (.porFranquicia "F1")) ∧
    (franquiciaIdDeSede [⟨"S1", some "F1"⟩] (some "S1") = none →
      listar_clientes [⟨"S1", some "F1"⟩] [⟨1, none, none, none, some "S1", none⟩]
          (some "S1")
        = List.filter (fun c => c.sede_id == some "S1")
            [⟨1, none, none, none, some "S1", none⟩] ∧
      listarTodosQuery [⟨"S1", some "F1"⟩] (some "S1") = some (.porSede (some "S1")))) :=
  listar_clientes_spec [⟨"S1", some "F1"⟩] [⟨1, none, none, none, some "S1", none⟩]
    "S1" "F1" (by decide)

/-! ### routes_servicios.py: service listing -/

/-- A service document as the listing reads it. -/
structure Servicio where
  servicio_id : String
  sede_id : Option String
  franquicia_id : Option String
  activo : Bool
  deriving DecidableEq

/-- `_build_sede_query`: a service matches when its `sede_id` is missing or
null, or equals the site of the caller, or — only when the franchise id is
truthy — its `franquicia_id` equals the franchise of the caller. -/
def buildSedeQueryMatches (sedeId franquiciaId : Option String) (s : Servicio) : Bool :=
  s.sede_id == (none : Option String) || s.sede_id == sedeId ||
    (truthy franquiciaId && s.franquicia_id == franquiciaId)

/-- The optional `activo` query parameter of `listar_servicios`. -/
def activoMatches (activo : Option Bool) (s : Servicio) : Bool :=
  match activo with
  | none => true
  | some b => s.activo == b

/-- `listar_servicios`: only the `admin_sede` role gets the hybrid scope
filter (franchise id from the token, else from the site); every other role
falls into the unrestricted `else` branch. -/
def listar_servicios (rol : String) (userSede userFranquicia : Option String)
    (locales : List Sede) (servicios : List Servicio) (activo : Option Bool) : List Servicio :=
  if rol = "admin_sede" then
    let fid := if truthy userFranquicia then userFranquicia
      else franquiciaIdDeSede locales userSede
    servicios.filter (fun s => buildSedeQueryMatches userSede fid s && activoMatches activo s)
  else
    servicios.filter (activoMatches activo)

/-- Modelled from the claim wording of C4 (not from the source): the scope
an `admin_franquicia` caller with franchise F is supposed to see — global
services plus the services tagged with F. -/
def specServicioScopeFranquicia (F : String) (s : Servicio) : Bool :=
  (s.sede_id == none && s.franquicia_id == none) || s.franquicia_id == some F

/-! ### C4 -/

/-- C4 counterexample. A service tagged to a foreign site and a foreign
franchise is outside the scope the claim grants an `admin_franquicia`
caller with franchise F1, yet `listar_servicios` returns it to that caller:
the role has no branch in the source and falls into the unrestricted
`else`. -/
theorem listar_servicios_admin_franquicia_cex :
    listar_servicios "admin_franquicia" none (some "F1") []
        [⟨"SV-1", some "S9", some "F9", true⟩] none
      = [⟨"SV-1", some "S9", some "F9", true⟩] ∧
    specServicioScopeFranquicia "F1" ⟨"SV-1", some "S9", some "F9", true⟩ = false := by
  decide

/-- C4 (amended): `listar_servicios` applies a scope filter only for the
`admin_sede` role. A caller with role `admin_franquicia` receives the
unrestricted listing — every service matching the optional `activo`
parameter, including services of other franchises and of sites outside its
own — exactly what a `super_admin` caller receives. -/
theorem listar_servicios_admin_franquicia_unrestricted
    (userSede userFranquicia : Option String) (locales : List Sede)
    (servicios : List Servicio) (activo : Option Bool) :
    listar_servicios "admin_franquicia" userSede userFranquicia locales servicios activo
      = servicios.filter (activoMatches activo) ∧
    listar_servicios "admin_franquicia" userSede userFranquicia locales servicios activo
      = listar_servicios "super_admin" userSede userFranquicia locales servicios activo ∧
    (∀ s ∈ servicios, activoMatches activo s = true →
      s ∈ listar_servicios "admin_franquicia" userSede userFranquicia locales servicios activo) := by
  refine ⟨rfl, rfl, fun s hs ha => ?_⟩
  exact List.mem_filter.mpr ⟨hs, ha⟩

/-! ### routes_clientes.py: create and edit -/

/-- The request payload of the client create/edit endpoints (the fields the
duplicate check and the update read; `exclude_none` drops the `none`s). -/
structure ClientePayload where
  nombre : Option String
  correo : Option String
  telefono : Option String
  sede_id : Option String
  deriving DecidableEq

/-- `verificar_duplicado_cliente`: nothing when both contact fields are
falsy; otherwise the first client, other than the excluded id, whose email
matches a given email or whose phone matches a given phone. -/
def verificar_duplicado_cliente (clients : List Cliente) (correo telefono : Option String)
    (excludeId : Option Nat) : Option Cliente :=
  if !truthy correo && !truthy telefono then none
  else clients.find? (fun c =>
    (match excludeId with
     | some i => c.id != i
     | none => true) &&
    ((truthy correo && c.correo == correo) || (truthy telefono && c.telefono == telefono)))

inductive CrearClienteResult where
  | noAutorizado
  | sinSede
  | sedeNoEncontrada
  | creado (c : Cliente)
  deriving DecidableEq

/-- `crear_cliente`: role gate, target site resolution (authenticated site
first, else the one from the payload), site lookup, then an unconditional
insert that inherits the franchise tag of the site. The source performs no duplicate-contact
check on this path. -/
def crear_cliente (locales : List Sede) (clients : List Cliente) (rol : String)
    (userSede : Option String) (payload : ClientePayload) (newId : Nat) :
    CrearClienteResult × List Cliente :=
  if rol != "admin_sede" && rol != "admin_franquicia" && rol != "super_admin" then
    (.noAutorizado, clients)
  else
    let sedeObjetivo := if truthy userSede then userSede else payload.sede_id
    if !truthy sedeObjetivo then (.sinSede, clients)
    else
      match locales.find? (fun l => some l.sede_id == sedeObjetivo) with
      | none => (.sedeNoEncontrada, clients)
      | some sedeInfo =>
        let nuevo : Cliente :=
          { id := newId, nombre := payload.nombre, correo := payload.correo,
            telefono := payload.telefono, sede_id := sedeObjetivo,
            franquicia_id := sedeInfo.franquicia_id }
        (.creado nuevo, clients ++ [nuevo])

inductive EditarClienteResult where
  | noAutorizado
  | noEncontrado
  | sinAcceso
  | duplicado (campo : String)
  | actualizado
  deriving DecidableEq

/-- The `$set` of `editar_cliente`: only the payload fields that are
present overwrite the stored ones (`exclude_none`). -/
def aplicarEdicion (p : ClientePayload) (c : Cliente) : Cliente :=
  { c with
    nombre := match p.nombre with | some x => some x | none => c.nombre,
    correo := match p.correo with | some x => some x | none => c.correo,
    telefono := match p.telefono with | some x => some x | none => c.telefono,
    sede_id := match p.sede_id with | some x => some x | none => c.sede_id }

/-- `editar_cliente`: role gate, client lookup, franchise/site access check
for `admin_sede`, then the duplicate-contact check excluding the edited
client; a hit aborts naming the duplicated field and writes nothing. -/
def editar_cliente (locales : List Sede) (clients : List Cliente) (rol : String)
    (userSede : Option String) (targetId : Nat) (p : ClientePayload) :
    EditarClienteResult × List Cliente :=
  if rol != "admin_sede" && rol != "super_admin" then (.noAutorizado, clients)
  else
    match clients.find? (fun c => c.id == targetId) with
    | none => (.noEncontrado, clients)
    | some cliente =>
      let acceso :=
        if rol == "admin_sede" then
          let uf := franquiciaIdDeSede locales userSede
          (truthy uf && uf == cliente.franquicia_id) || cliente.sede_id == userSede
        else true
      if !acceso then (.sinAcceso, clients)
      else
        match verificar_duplicado_cliente clients p.correo p.telefono (some cliente.id) with
        | some existente =>
          (.duplicado (if p.correo == existente.correo then "correo" else "teléfono"), clients)
        | none =>
          (.actualizado, updateFirst (fun c => c.id == cliente.id) (aplicarEdicion p) clients)

/-! ### C8 -/

/-- C8 counterexample. A client with a given email exists; creating a
second client with the same email succeeds and inserts the document, although the
duplicate is visible to `verificar_duplicado_cliente`: the create path
never calls the duplicate check, so the claimed conflict on every client
write is false. -/
theorem crear_cliente_no_duplicate_check_cex :
    verificar_duplicado_cliente [⟨1, some "Ana", some "a@b.co", some "300", some "S1", none⟩]
      (some "a@b.co") (some "301") none
      = some ⟨1, some "Ana", some "a@b.co", some "300", some "S1", none⟩ ∧
    crear_cliente [⟨"S1", none⟩] [⟨1, some "Ana", some "a@b.co", some "300", some "S1", none⟩]
      "super_admin" none ⟨some "Eve", some "a@b.co", some "301", some "S1"⟩ 2
      = (.creado ⟨2, some "Eve", some "a@b.co", some "301", some "S1", none⟩,
         [⟨1, some "Ana", some "a@b.co", some "300", some "S1", none⟩,
          ⟨2, some "Eve", some "a@b.co", some "301", some "S1", none⟩]) := by
  constructor
  · decide
  · decide

/-- C8 (amended): only the edit path enforces contact uniqueness. On edit,
when the duplicate check (excluding the edited client) finds another
client, the operation answers a conflict naming either the email or the
phone field and the collection is unchanged; on create, once the role gate
and site resolution pass, the document is inserted unconditionally — no
duplicate-contact check runs on that path. -/
theorem cliente_duplicados_spec (locales : List Sede) (clients : List Cliente)
    (userSede : Option String) (targetId : Nat) (p : ClientePayload) (newId : Nat) :
    (∀ cliente existente,
      clients.find? (fun c => c.id == targetId) = some cliente →
      verificar_duplicado_cliente clients p.correo p.telefono (some cliente.id)
        = some existente →
      editar_cliente locales clients "super_admin" userSede targetId p
        = (.duplicado (if p.correo == existente.correo then "correo" else "teléfono"),
           clients)) ∧
    (∀ sedeInfo,
      locales.find? (fun l => some l.sede_id
          == (if truthy userSede then userSede else p.sede_id)) = some sedeInfo →
      truthy (if truthy userSede then userSede else p.sede_id) = true →
      crear_cliente locales clients "super_admin" userSede p newId
        = (.creado ⟨newId, p.nombre, p.correo, p.telefono,
              (if truthy userSede then userSede else p.sede_id),
              sedeInfo.franquicia_id⟩,
           clients ++ [⟨newId, p.nombre, p.correo, p.telefono,
              (if truthy userSede then userSede else p.sede_id),
              sedeInfo.franquicia_id⟩])) := by
  constructor
  · intro cliente existente hfind hdup
    simp only [editar_cliente, hfind, hdup]
    rfl
  · intro sedeInfo hsede htr
    simp only [crear_cliente, htr, hsede]
    rfl

end AppAgenda
